import Mathlib

/-!
Verification development for the ROMA_STORE shopping-query pipeline.

The Python source under `src/` is embedded shallowly:

* strings are `List Char` / `String`; Python `str.lower()` is modelled for the
  ASCII range by `asciiLower`; Python `str.strip()` / `str.split()` are modelled
  over the ASCII whitespace characters;
* Python floats are modelled as exact rationals (`ℚ`); `int(x)` on the
  nonnegative amounts produced by price parsing is rational truncation `pyInt`;
* the three compiled regular expressions of `BudgetAnalyzer.__init__` are
  embedded as explicit scanners (`searchL` tries every start position from the
  left, like `re.search`; at a given position the alternations of these
  particular patterns are mutually exclusive and every greedy character-class
  repetition is followed by a character of a disjoint class, so maximal-munch
  deterministic matching computes exactly the Python match and capture groups;
  the patterns carry `re.IGNORECASE`, modelled by matching on the lowercased
  text, which is equivalent for these ASCII-literal patterns);
* Python truthiness tests (`if specific_budget:`, `if max_price:`,
  `if analysis['category']:`...) are modelled by explicit `truthy*` functions:
  `None`, `0` and `""` are falsy;
* `MockProductDatabase.search_products` mutates `self.products` in place
  (`filtered_products` aliases `self.products` when no filter criterion is
  truthy, and `list.sort` sorts in place): the embedding threads the database
  state explicitly, returning `(result, newState)`;
* Python's stable `list.sort(key=...)` is modelled by the stable
  `List.insertionSort` on the corresponding (total, transitive) key order,
  which computes the same list as any stable sort by that key.
-/

namespace RomaStore

/-! ### Characters and strings (ASCII model of Python `str` operations) -/

/-- ASCII whitespace, the characters Python `str.split()` / `str.strip()` and
the regex class `\s` treat as whitespace in the ASCII range. -/
def isSpaceC (c : Char) : Bool :=
  c == ' ' || c == '\t' || c == '\n' || c == '\r' || c == '\x0b' || c == '\x0c'

/-- Decimal digit, the regex class `\d` in the ASCII range. -/
def isDigitC (c : Char) : Bool :=
  48 ≤ c.toNat && c.toNat ≤ 57

/-- ASCII model of Python `str.lower()` on a single character. -/
def asciiLower (c : Char) : Char :=
  if 65 ≤ c.toNat && c.toNat ≤ 90 then Char.ofNat (c.toNat + 32) else c

/-- Python `str.lower()`. -/
def lowerL (s : List Char) : List Char := s.map asciiLower

/-- Python `str.strip()`: drop leading and trailing whitespace. -/
def stripL (s : List Char) : List Char :=
  ((s.dropWhile isSpaceC).reverse.dropWhile isSpaceC).reverse

/-- Match a literal string at the start of `s`; on success return the rest. -/
def matchLit : List Char → List Char → Option (List Char)
  | [], s => some s
  | _ :: _, [] => none
  | p :: ps, c :: cs => if p = c then matchLit ps cs else none

/-- Python `needle in hay` (substring containment). -/
def containsSub (needle : List Char) : List Char → Bool
  | [] => (matchLit needle []).isSome
  | c :: cs => (matchLit needle (c :: cs)).isSome || containsSub needle cs

/-- Python `str.split()` (no argument): split on runs of whitespace,
discarding empty pieces.  `acc` holds the current word, reversed. -/
def splitWsAux : List Char → List Char → List (List Char)
  | [], acc => if acc.isEmpty then [] else [acc.reverse]
  | c :: rest, acc =>
    if isSpaceC c then
      if acc.isEmpty then splitWsAux rest [] else acc.reverse :: splitWsAux rest []
    else splitWsAux rest (c :: acc)

/-- Python `str.split()` with no argument. -/
def splitWs (s : List Char) : List (List Char) := splitWsAux s []

/-! ### Numbers -/

/-- Value of a list of decimal digit characters (most significant first). -/
def digitsToNat (ds : List Char) : Nat :=
  ds.foldl (fun n c => n * 10 + (c.toNat - 48)) 0

/-- Python `int(x)` for the nonnegative rational amounts produced by price
parsing: truncation toward zero (`Int` division truncates toward zero). -/
def pyInt (q : ℚ) : Int := q.num / (q.den : Int)

/-! ### Lexicon (`src/config.py`) -/

/-- `CATEGORY_KEYWORDS` from `src/config.py`, in declaration order. -/
def CATEGORY_KEYWORDS : List (String × List String) :=
  [("apparel",
    ["shoes", "clothes", "t-shirt", "shirt", "pants", "trousers", "jeans",
     "dress", "jacket", "coat", "footwear", "sneakers", "boots", "sandals",
     "sweater", "hoodie", "joggers", "shorts", "skirt", "blouse"]),
   ("mobiles",
    ["phone", "smartphone", "mobile", "iphone", "android", "cellphone",
     "redmi", "samsung", "realme", "vivo", "oppo", "oneplus", "nokia",
     "moto", "motorola", "poco", "nothing", "google pixel"]),
   ("electronics",
    ["laptop", "computer", "pc", "notebook", "macbook", "thinkpad",
     "tv", "television", "smart tv", "led tv", "4k tv",
     "camera", "dslr", "mirrorless", "headphones", "earphones",
     "speaker", "soundbar", "tablet", "ipad", "monitor", "keyboard",
     "mouse", "printer", "scanner", "projector", "gaming console"])]

/-- `BUDGET_KEYWORDS` from `src/config.py`, in declaration order. -/
def BUDGET_KEYWORDS : List (String × List String) :=
  [("low",
    ["cheap", "budget", "affordable", "low cost", "economical", "inexpensive",
     "under budget", "low price", "economy", "basic", "entry level"]),
   ("medium",
    ["mid-range", "reasonable", "moderate", "mid priced", "standard",
     "average", "decent", "fair price", "competitive", "value"]),
   ("high",
    ["premium", "expensive", "high-end", "luxury", "top", "best",
     "flagship", "professional", "pro", "ultimate", "elite"])]

/-- `BUDGET_RANGES` from `src/config.py`. -/
def BUDGET_RANGES : List (String × List (String × Int)) :=
  [("apparel", [("low", 3000), ("medium", 8000), ("high", 20000)]),
   ("mobiles", [("low", 15000), ("medium", 35000), ("high", 70000)]),
   ("electronics", [("low", 50000), ("medium", 100000), ("high", 250000)])]

/-- `COLOR_KEYWORDS` from `src/config.py`. -/
def COLOR_KEYWORDS : List String :=
  ["red", "blue", "black", "white", "green", "yellow", "pink", "purple",
   "orange", "silver", "gold", "navy", "beige", "brown", "gray", "maroon",
   "cyan", "magenta", "violet", "indigo", "turquoise", "khaki"]

/-! ### Python truthiness -/

/-- Truthiness of an optional integer: `None` and `0` are falsy. -/
def truthyOptInt : Option Int → Bool
  | none => false
  | some n => n != 0

/-- Truthiness of an integer: `0` is falsy. -/
def truthyInt (n : Int) : Bool := n != 0

/-- Truthiness of an optional string: `None` and `""` are falsy. -/
def truthyOptStr : Option String → Bool
  | none => false
  | some s => !s.data.isEmpty

/-! ### Price-pattern scanners (`BudgetAnalyzer.budget_patterns`)

The three patterns of `BudgetAnalyzer.__init__`:

* `(?:under|below|less than|upto)\s+(?:rs\.?|₹)?\s*(\d+(?:,\d+)*(?:\.\d+)?)`
* `(?:around|about)\s+(?:rs\.?|₹)?\s*(\d+(?:,\d+)*(?:\.\d+)?)`
* `between\s+(?:rs\.?|₹)?\s*(\d+(?:,\d+)*)\s+and\s+(?:rs\.?|₹)?\s*(\d+(?:,\d+)*)`
-/

/-- `re.search`: try a match at every start position, leftmost first (also at
the end-of-string position). -/
def searchL (matchAt : List Char → Option (List Char)) : List Char → Option (List Char)
  | [] => matchAt []
  | c :: rest =>
    match matchAt (c :: rest) with
    | some r => some r
    | none => searchL matchAt rest

/-- Try each literal alternative in order (the alternatives used below are
mutually exclusive at any given position). -/
def firstKeyMatch : List (List Char) → List Char → Option (List Char)
  | [], _ => none
  | k :: ks, s =>
    match matchLit k s with
    | some rest => some rest
    | none => firstKeyMatch ks s

/-- `(?:rs\.?|₹)?`: optionally skip a currency marker (greedy; a failure after
consuming it is a failure of the whole position either way, so the
deterministic skip is faithful). -/
def skipCurrency (s : List Char) : List Char :=
  match matchLit ['r', 's', '.'] s with
  | some rest => rest
  | none =>
    match matchLit ['r', 's'] s with
    | some rest => rest
    | none =>
      match matchLit ['₹'] s with
      | some rest => rest
      | none => s

/-- Maximal run of decimal digits (`\d+` and `\d*` munching). -/
def digitSpan : List Char → List Char × List Char
  | [] => ([], [])
  | c :: rest =>
    if isDigitC c then
      let (ds, r) := digitSpan rest
      (c :: ds, r)
    else ([], c :: rest)

/-- `(?:,\d+)*` (greedy): consume groups of a comma followed by digits.
Each iteration consumes at least two characters, so `fuel = length` suffices. -/
def commaGroupsAux : Nat → List Char → List Char × List Char
  | 0, s => ([], s)
  | fuel + 1, ',' :: c :: rest =>
    if isDigitC c then
      let (ds, r1) := digitSpan rest
      let (more, r2) := commaGroupsAux fuel r1
      (',' :: c :: (ds ++ more), r2)
    else ([], ',' :: c :: rest)
  | _ + 1, s => ([], s)

/-- `(?:,\d+)*` (greedy). -/
def commaGroups (s : List Char) : List Char × List Char :=
  commaGroupsAux s.length s

/-- `\d+(?:,\d+)*(?:\.\d+)?`: the captured amount of patterns 1 and 2.
Returns `(capture, rest)`. -/
def parseNumber (s : List Char) : Option (List Char × List Char) :=
  match digitSpan s with
  | ([], _) => none
  | (ds, r1) =>
    let (cg, r2) := commaGroups r1
    match r2 with
    | '.' :: c :: rest =>
      if isDigitC c then
        let (fs, r3) := digitSpan rest
        some (ds ++ cg ++ '.' :: c :: fs, r3)
      else some (ds ++ cg, '.' :: c :: rest)
    | r => some (ds ++ cg, r)

/-- `\d+(?:,\d+)*`: the captured amounts of pattern 3 (no fractional part). -/
def parseNumInt (s : List Char) : Option (List Char × List Char) :=
  match digitSpan s with
  | ([], _) => none
  | (ds, r1) =>
    let (cg, r2) := commaGroups r1
    some (ds ++ cg, r2)

/-- `\s+(?:rs\.?|₹)?\s*` followed by a captured amount with optional fraction
(the tail of patterns 1 and 2 after the keyword alternation). -/
def afterKeyAmount (s : List Char) : Option (List Char) :=
  match s with
  | [] => none
  | c :: cs =>
    if isSpaceC c then
      let t := skipCurrency (cs.dropWhile isSpaceC)
      (parseNumber (t.dropWhile isSpaceC)).map (·.1)
    else none

/-- Pattern 1 at a fixed position; on success returns capture group 1. -/
def patUnder (s : List Char) : Option (List Char) :=
  match firstKeyMatch ["under".data, "below".data, "less than".data, "upto".data] s with
  | some rest => afterKeyAmount rest
  | none => none

/-- Pattern 2 at a fixed position; on success returns capture group 1. -/
def patAround (s : List Char) : Option (List Char) :=
  match firstKeyMatch ["around".data, "about".data] s with
  | some rest => afterKeyAmount rest
  | none => none

/-- Pattern 3 at a fixed position; on success returns capture group 2
(the upper amount — the lower bound is discarded by the source). -/
def patBetween (s : List Char) : Option (List Char) :=
  match matchLit "between".data s with
  | none => none
  | some r0 =>
    match r0 with
    | [] => none
    | c :: cs =>
      if isSpaceC c then
        let t := skipCurrency (cs.dropWhile isSpaceC)
        match parseNumInt (t.dropWhile isSpaceC) with
        | none => none
        | some (_, r1) =>
          match r1 with
          | [] => none
          | d :: ds1 =>
            if isSpaceC d then
              match matchLit "and".data (ds1.dropWhile isSpaceC) with
              | none => none
              | some r2 =>
                match r2 with
                | [] => none
                | e :: es =>
                  if isSpaceC e then
                    let u := skipCurrency (es.dropWhile isSpaceC)
                    (parseNumInt (u.dropWhile isSpaceC)).map (·.1)
                  else none
            else none
      else none

/-! ### `BudgetAnalyzer` (`src/budget_analyzer.py`) -/

/-- The budget-signal words of `BudgetAnalyzer._extract_price`. -/
def budget_signal_words : List String :=
  ["under", "below", "less than", "upto", "around", "about", "between",
   "max", "maximum"]

/-- Strip thousands separators: `price_str.replace(',', '')`. -/
def stripCommas (s : List Char) : List Char := s.filter (fun c => c ≠ ',')

/-- Python `float()` on the captured amount shapes `digits(.digits)?`
(exact rational model). -/
def parseFloat (s : List Char) : Option ℚ :=
  match digitSpan s with
  | ([], _) => none
  | (ip, r) =>
    match r with
    | [] => some (digitsToNat ip : ℚ)
    | '.' :: fs =>
      if fs ≠ [] && fs.all isDigitC then
        some ((digitsToNat ip : ℚ) + (digitsToNat fs : ℚ) / ((10 : ℚ) ^ fs.length))
      else none
    | _ => none

/-- The body of the `try` block of `_extract_price` for one captured amount:
strip commas, parse, apply the `k` shorthand (`'k' in query.lower()` and the
parsed value below 100 multiplies by 1000), truncate to `int`. -/
def parsePrice (qlow : List Char) (price_str : List Char) : Option Int :=
  match parseFloat (stripCommas price_str) with
  | none => none
  | some price =>
    let price := if containsSub ['k'] qlow && price < 100 then price * 1000 else price
    some (pyInt price)

/-- The pattern loop of `_extract_price`: first pattern whose search matches
and whose amount parses wins (a parse failure falls through to the next
pattern, mirroring the `except (ValueError, IndexError): continue`). -/
def tryPatterns : List (List Char → Option (List Char)) → List Char → Option Int
  | [], _ => none
  | pat :: rest, qlow =>
    match searchL pat qlow with
    | some price_str =>
      match parsePrice qlow price_str with
      | some v => some v
      | none => tryPatterns rest qlow
    | none => tryPatterns rest qlow

/-- `BudgetAnalyzer._extract_price`. -/
def extractPrice (query : List Char) : Option Int :=
  let qlow := lowerL query
  let has_budget_keyword := budget_signal_words.any (fun kw => containsSub kw.data qlow)
  if !has_budget_keyword then none
  else tryPatterns [patUnder, patAround, patBetween] qlow

/-- `any(keyword in query for keyword in keywords)`. -/
def anyKeywordHit (q : List Char) (keywords : List String) : Bool :=
  keywords.any (fun kw => containsSub kw.data q)

/-- `BudgetAnalyzer._detect_category`. -/
def detect_category (q : List Char) : Option String :=
  if anyKeywordHit q ["non-apple", "not apple", "excluding apple"] &&
      anyKeywordHit q ["laptop", "computer", "macbook"] then
    some "electronics"
  else
    match CATEGORY_KEYWORDS.find? (fun kv => anyKeywordHit q kv.2) with
    | some kv => some kv.1
    | none => none

/-- `BudgetAnalyzer._detect_budget_type`.  Note the Python truthiness test
`if self._extract_price(query):` — an extracted price of `0` does not yield
`'specific'`. -/
def detect_budget_type (q : List Char) : String :=
  if truthyOptInt (extractPrice q) then "specific"
  else
    match BUDGET_KEYWORDS.find? (fun kv => anyKeywordHit q kv.2) with
    | some kv => kv.1
    | none =>
      if anyKeywordHit q ["cheap", "budget", "under"] then "low" else "low"

/-- `self.BUDGET_RANGES.get(category, {})`: the per-category tier table, empty
when the category is `None` or unknown. -/
def budgetTable : Option String → List (String × Int)
  | none => []
  | some c =>
    match BUDGET_RANGES.find? (fun kv => kv.1 == c) with
    | some kv => kv.2
    | none => []

/-- `self.BUDGET_RANGES.get(category, {}).get(budget_type, 50000)`. -/
def budgetRangeLookup (category : Option String) (budget_type : String) : Int :=
  match (budgetTable category).find? (fun kv => kv.1 == budget_type) with
  | some kv => kv.2
  | none => 50000

/-- The dictionary returned by `BudgetAnalyzer.analyze_budget`. -/
structure Constraints where
  category : Option String
  max_budget : Int
  budget_type : String
  specific_budget : Option Int
  original_query : String
deriving DecidableEq, Repr

/-- `BudgetAnalyzer.analyze_budget`.  Note the truthiness test
`if specific_budget:` — an extracted `0` falls back to the range table. -/
def analyze_budget (query : String) : Constraints :=
  let query_lower := stripL (lowerL query.data)
  let category := detect_category query_lower
  let budget_type := detect_budget_type query_lower
  let specific_budget := extractPrice query_lower
  let max_budget :=
    if truthyOptInt specific_budget then specific_budget.getD 0
    else budgetRangeLookup category budget_type
  { category := category
    max_budget := max_budget
    budget_type := budget_type
    specific_budget := specific_budget
    original_query := query }

/-! ### Products and the mock catalog (`src/mock_database.py`)

Ratings are Python floats, modelled as exact rationals; prices are integers in
the catalog data. -/

/-- A product record of the mock catalog (the fields the core reads). -/
structure Product where
  name : String
  description : String
  price : Int
  rating : ℚ
  category : String
  brand : String
  color : String
  platform : String
deriving DecidableEq, Repr

/-- The sort key order of `filtered_products.sort(key=lambda x: (-x['rating'],
x['price']))`: descending rating, then ascending price. -/
def prodLe (a b : Product) : Prop :=
  b.rating < a.rating ∨ (a.rating = b.rating ∧ a.price ≤ b.price)

instance : DecidableRel prodLe := fun a b => by
  unfold prodLe
  infer_instance

instance : IsTotal Product prodLe where
  total a b := by
    rcases lt_trichotomy b.rating a.rating with h | h | h
    · exact Or.inl (Or.inl h)
    · rcases le_total a.price b.price with hp | hp
      · exact Or.inl (Or.inr ⟨h.symm, hp⟩)
      · exact Or.inr (Or.inr ⟨h, hp⟩)
    · exact Or.inr (Or.inl h)

instance : IsTrans Product prodLe where
  trans a b c hab hbc := by
    rcases hab with h1 | ⟨h1, h2⟩ <;> rcases hbc with h3 | ⟨h3, h4⟩
    · exact Or.inl (h3.trans h1)
    · exact Or.inl (h3 ▸ h1)
    · exact Or.inl (h1 ▸ h3)
    · exact Or.inr ⟨h1.trans h3, h2.trans h4⟩

/-- Python's stable in-place `list.sort` by the `(-rating, price)` key,
modelled by the stable insertion sort on the same total preorder. -/
def sortProducts (l : List Product) : List Product :=
  List.insertionSort prodLe l

/-- The free-text criterion of `search_products`: any whitespace token of the
query occurs as a substring of the product's name, description, category,
brand or color (all lowercased). -/
def matchesTokens (query : String) (p : Product) : Bool :=
  (splitWs (lowerL query.data)).any fun word =>
    containsSub word (lowerL p.name.data) ||
    containsSub word (lowerL p.description.data) ||
    containsSub word (lowerL p.category.data) ||
    containsSub word (lowerL p.brand.data) ||
    containsSub word (lowerL p.color.data)

/-- `MockProductDatabase.search_products`, with the repository state threaded
explicitly.  In the source, `filtered_products` starts as an alias of
`self.products` and each truthy criterion replaces it by a fresh list
comprehension; the final `filtered_products.sort(...)` therefore sorts
`self.products` in place exactly when no criterion was truthy.  The returned
pair is `(result, new repository state)`. -/
def search_products (db : List Product) (query : Option String)
    (category : Option String) (max_price : Option Int) (brand : Option String)
    (color : Option String) (platform : Option String) :
    List Product × List Product :=
  let f1 := if truthyOptStr category then
      db.filter (fun p => p.category == category.getD "") else db
  let f2 := if truthyOptInt max_price then
      f1.filter (fun p => p.price ≤ max_price.getD 0) else f1
  let f3 := if truthyOptStr brand then
      f2.filter (fun p => containsSub (lowerL (brand.getD "").data) (lowerL p.brand.data))
    else f2
  let f4 := if truthyOptStr color then
      f3.filter (fun p => containsSub (lowerL (color.getD "").data) (lowerL p.color.data))
    else f3
  let f5 := if truthyOptStr platform then
      f4.filter (fun p => lowerL p.platform.data == lowerL (platform.getD "").data)
    else f4
  let f6 := if truthyOptStr query then f5.filter (matchesTokens (query.getD "")) else f5
  let f7 := if truthyOptStr query &&
      containsSub "non-apple".data (lowerL (query.getD "").data) then
      f6.filter (fun p => !containsSub "apple".data (lowerL p.brand.data))
    else f6
  let sorted := sortProducts f7
  let anyApplied := truthyOptStr category || truthyOptInt max_price ||
    truthyOptStr brand || truthyOptStr color || truthyOptStr platform ||
    truthyOptStr query
  (sorted, if anyApplied then db else sorted)

/-- `MockProductDatabase.get_product_by_id`: index into the stored list,
`None` outside `0 <= product_id < len(self.products)`. -/
def get_product_by_id (db : List Product) (product_id : Int) : Option Product :=
  if 0 ≤ product_id ∧ product_id < (db.length : Int) then db.get? product_id.toNat
  else none

/-! ### Scoring and ranking (`ShoppingQueryProcessor._filter_and_rank`) -/

/-- The per-product score accumulation of `_filter_and_rank`, term by term in
source order.  `query_lower` is the lowercased query. -/
def scoreProduct (p : Product) (query_lower : List Char) (analysis : Constraints) : ℚ :=
  let product_text :=
    lowerL ((p.name ++ " " ++ p.description ++ " " ++ p.brand ++ " " ++ p.color).data)
  let s1 := (splitWs query_lower).foldl
    (fun s keyword => if containsSub keyword product_text then s + 2 else s) 0
  let s2 := COLOR_KEYWORDS.foldl
    (fun s color =>
      if containsSub color.data query_lower && containsSub color.data (lowerL p.color.data)
      then s + 3 else s) s1
  let s3 := if containsSub (lowerL p.brand.data) query_lower then s2 + 2 else s2
  let s4 :=
    if truthyInt analysis.max_budget then
      let price_ratio : ℚ := (p.price : ℚ) / (analysis.max_budget : ℚ)
      if price_ratio ≤ 1 then s3 + (1 - price_ratio) * 2 else s3 - 5
    else s3
  let s5 := s4 + p.rating * 1.5
  let s6 :=
    if truthyOptStr analysis.category && p.category == analysis.category.getD ""
    then s5 + 1 else s5
  s6

/-- The lowercased space-joined product text
`f"{name} {description} {brand} {color}".lower()` scanned by the token term
(equal by definition to the `product_text` of `scoreProduct`). -/
def productText (p : Product) : List Char :=
  lowerL ((p.name ++ " " ++ p.description ++ " " ++ p.brand ++ " " ++ p.color).data)

/-- The price-fit term of the scorer: skipped for a null/zero budget, else
`(1 - price/budget) * 2` within budget and `-5` over budget. -/
def priceFit (p : Product) (analysis : Constraints) : ℚ :=
  if truthyInt analysis.max_budget then
    let price_ratio : ℚ := (p.price : ℚ) / (analysis.max_budget : ℚ)
    if price_ratio ≤ 1 then (1 - price_ratio) * 2 else -5
  else 0

/-- The relevance score exactly as claim C4 words it (for comparison with the
source scorer): the color bonus is a single `+3` awarded when some recognized
color word occurs in the query and that same color IS the product's color
(equality), and the category bonus requires only a non-null category. -/
def specRelevanceScore (p : Product) (query_lower : List Char)
    (analysis : Constraints) : ℚ :=
  2 * (((splitWs query_lower).countP
        (fun keyword => containsSub keyword (productText p)) : ℕ) : ℚ) +
  (if COLOR_KEYWORDS.any (fun color =>
      containsSub color.data query_lower && lowerL p.color.data == color.data)
    then 3 else 0) +
  (if containsSub (lowerL p.brand.data) query_lower then 2 else 0) +
  priceFit p analysis +
  p.rating * 1.5 +
  (if analysis.category.isSome && p.category == analysis.category.getD ""
    then 1 else 0)

/-- The source scorer rewritten as an order-independent sum of its six terms
(the amended formula: `+3` for EACH recognized color word occurring as a
substring of both the query and the product's color; the category bonus
requires a non-null, non-empty category). -/
def scoreTermSum (p : Product) (query_lower : List Char)
    (analysis : Constraints) : ℚ :=
  2 * (((splitWs query_lower).countP
        (fun keyword => containsSub keyword (productText p)) : ℕ) : ℚ) +
  3 * ((COLOR_KEYWORDS.countP (fun color =>
        containsSub color.data query_lower &&
        containsSub color.data (lowerL p.color.data)) : ℕ) : ℚ) +
  (if containsSub (lowerL p.brand.data) query_lower then 2 else 0) +
  priceFit p analysis +
  p.rating * 1.5 +
  (if truthyOptStr analysis.category && p.category == analysis.category.getD ""
    then 1 else 0)

/-! Concrete data used by counterexamples and witnesses. -/

/-- A product whose color field holds two recognized color words. -/
def twoColorProduct : Product :=
  ⟨"x", "", 0, 0, "", "b", "navy blue", ""⟩

/-- Constraints with a zero budget ceiling and no category. -/
def plainConstraints : Constraints :=
  ⟨none, 0, "", none, ""⟩

/-- A product with an empty category string. -/
def emptyCategoryProduct : Product :=
  ⟨"x", "", 0, 0, "", "b", "", ""⟩

/-- Constraints whose category is the empty string (non-null but falsy). -/
def emptyCategoryConstraints : Constraints :=
  ⟨some "", 0, "", none, ""⟩

/-- A cheap product used to exhibit the zero-ceiling behavior of the catalog
price filter. -/
def fivePriceProduct : Product :=
  ⟨"item", "", 5, 0, "misc", "b", "red", "Amazon"⟩

/-- A product within a nonzero ceiling, for the claim C6 witness. -/
def tenBudgetProduct : Product :=
  ⟨"gadget", "", 5, 0, "misc", "b", "red", "Amazon"⟩

/-- A non-Apple laptop used by the claim C7 witness. -/
def dellProduct : Product :=
  ⟨"dell laptop", "", 1000, 4, "electronics", "Dell", "black", "Amazon"⟩

/-- A low-rated product stored first in the claim C10 exhibit catalog. -/
def lowRatedProduct : Product :=
  ⟨"A", "", 100, 1, "apparel", "Nike", "red", "Amazon"⟩

/-- A high-rated product stored second in the claim C10 exhibit catalog. -/
def highRatedProduct : Product :=
  ⟨"B", "", 50, 5, "apparel", "Puma", "blue", "Amazon"⟩

/-- `ShoppingQueryProcessor._filter_and_rank`: score, stable-sort descending
by score (`reverse=True` keeps ties in list order), drop the scores. -/
def filter_and_rank (products : List Product) (query : String)
    (analysis : Constraints) : List Product :=
  if products.isEmpty then []
  else
    let query_lower := lowerL query.data
    let scored_products := products.map (fun p => (scoreProduct p query_lower analysis, p))
    let sorted := List.insertionSort (fun a b : ℚ × Product => b.1 ≤ a.1) scored_products
    sorted.map (·.2)

/-! ### The pipeline (`ShoppingQueryProcessor.process_query`) -/

/-- The response dictionary of `process_query`; fields absent from a branch's
dictionary are `none` / `[]`. -/
structure Response where
  success : Bool
  query : String
  error : Option String := none
  analysis : Option Constraints := none
  products : List Product := []
  total_found : Option Nat := none
  category : Option (Option String) := none
  max_budget : Option Int := none
deriving DecidableEq, Repr

/-- The success dictionary built at the end of the `try` block. -/
def successResponse (q : String) (analysis : Constraints)
    (search_results filtered_results : List Product) : Response :=
  { success := true
    query := q
    analysis := some analysis
    products := filtered_results.take 3
    total_found := some search_results.length
    category := some analysis.category
    max_budget := some analysis.max_budget }

/-- The failure dictionary built by the `except` handler. -/
def failureResponse (q : String) (e : String) : Response :=
  { success := false
    error := some e
    query := q
    products := [] }

/-- `ShoppingQueryProcessor.process_query` with the repository state threaded
explicitly (the concrete pipeline: extract, retrieve, score and rank, build
the response; none of these stages can fail in the embedding). -/
def process_query (db : List Product) (user_query : String) :
    Response × List Product :=
  let analysis := analyze_budget user_query
  let sr := search_products db (some user_query) analysis.category
    (some analysis.max_budget) none none none
  let filtered_results := filter_and_rank sr.1 user_query analysis
  (successResponse user_query analysis sr.1 filtered_results, sr.2)

/-! ### The pipeline boundary (`try`/`except` of `process_query`)

Fallible stages are modelled as `Except String`-valued functions; the
`try`/`except Exception` block of the source is the `match` at the boundary. -/

/-- The body of the `try` block over abstract fallible stages. -/
def runPipeline (analyze : String → Except String Constraints)
    (search : Option String → Option String → Option Int → Except String (List Product))
    (rank : List Product → String → Constraints → Except String (List Product))
    (q : String) : Except String Response :=
  match analyze q with
  | .error e => .error e
  | .ok analysis =>
    match search (some q) analysis.category (some analysis.max_budget) with
    | .error e => .error e
    | .ok search_results =>
      match rank search_results q analysis with
      | .error e => .error e
      | .ok filtered_results =>
        .ok (successResponse q analysis search_results filtered_results)

/-- `process_query` over abstract fallible stages: the `except Exception`
handler converts any stage failure into the failure dictionary. -/
def process_query_boundary (analyze : String → Except String Constraints)
    (search : Option String → Option String → Option Int → Except String (List Product))
    (rank : List Product → String → Constraints → Except String (List Product))
    (q : String) : Response :=
  match runPipeline analyze search rank q with
  | .ok response => response
  | .error e => failureResponse q e

/-! ### Helper lemmas -/

/-- `analyze_budget` written out. -/
theorem analyze_budget_def (q : String) :
    analyze_budget q =
      { category := detect_category (stripL (lowerL q.data))
        max_budget :=
          if truthyOptInt (extractPrice (stripL (lowerL q.data))) then
            (extractPrice (stripL (lowerL q.data))).getD 0
          else
            budgetRangeLookup (detect_category (stripL (lowerL q.data)))
              (detect_budget_type (stripL (lowerL q.data)))
        budget_type := detect_budget_type (stripL (lowerL q.data))
        specific_budget := extractPrice (stripL (lowerL q.data))
        original_query := q } := rfl

/-- A digit character differs from any non-digit character. -/
theorem isDigitC_ne {c : Char} (hc : isDigitC c = true) {d : Char}
    (hd : isDigitC d = false) : c ≠ d := by
  intro h
  subst h
  rw [hc] at hd
  cases hd

/-- Whitespace characters have code points at most 32. -/
theorem isSpaceC_toNat {c : Char} (h : isSpaceC c = true) : c.toNat ≤ 32 := by
  simp only [isSpaceC, Bool.or_eq_true, beq_iff_eq] at h
  rcases h with ((((h | h) | h) | h) | h) | h <;> subst h <;> decide

/-- Digit characters have code points between 48 and 57. -/
theorem isDigitC_toNat {c : Char} (h : isDigitC c = true) :
    48 ≤ c.toNat ∧ c.toNat ≤ 57 := by
  simpa [isDigitC] using h

/-- Digits are not whitespace. -/
theorem isSpaceC_digit {c : Char} (h : isDigitC c = true) : isSpaceC c = false := by
  rcases isDigitC_toNat h with ⟨h1, _⟩
  cases hs : isSpaceC c
  · rfl
  · have := isSpaceC_toNat hs
    omega

/-- Lowercasing fixes digits. -/
theorem asciiLower_digit {c : Char} (h : isDigitC c = true) : asciiLower c = c := by
  rcases isDigitC_toNat h with ⟨_, h2⟩
  unfold asciiLower
  rw [if_neg]
  simp only [Bool.and_eq_true, decide_eq_true_eq, not_and]
  omega

/-- Lowercasing fixes digit strings. -/
theorem lowerL_digits {ds : List Char} (h : ∀ c ∈ ds, isDigitC c = true) :
    lowerL ds = ds := by
  induction ds with
  | nil => rfl
  | cons c cs ih =>
    simp only [lowerL, List.map_cons]
    rw [asciiLower_digit (h c (by simp))]
    have := ih (fun x hx => h x (by simp [hx]))
    simpa [lowerL] using this

/-- `digitSpan` consumes an all-digit string whole. -/
theorem digitSpan_all {ds : List Char} (h : ∀ c ∈ ds, isDigitC c = true) :
    digitSpan ds = (ds, []) := by
  induction ds with
  | nil => rfl
  | cons c cs ih =>
    rw [digitSpan]
    rw [if_pos (h c (by simp))]
    rw [ih (fun x hx => h x (by simp [hx]))]

/-- A needle whose first character occurs nowhere in the haystack is not a
substring. -/
theorem containsSub_head_ne {k0 : Char} {ks hay : List Char}
    (h : ∀ c ∈ hay, c ≠ k0) : containsSub (k0 :: ks) hay = false := by
  induction hay with
  | nil => rfl
  | cons c cs ih =>
    rw [containsSub]
    rw [show matchLit (k0 :: ks) (c :: cs) = none by
      rw [matchLit, if_neg]
      exact fun he => (h c (by simp)) he.symm]
    simp only [Option.isSome_none, Bool.false_or]
    exact ih (fun x hx => h x (by simp [hx]))

/-- The currency marker matcher skips nothing in front of a digit. -/
theorem skipCurrency_digit {c : Char} (h : isDigitC c = true) (cs : List Char) :
    skipCurrency (c :: cs) = c :: cs := by
  have h1 : ('r' : Char) ≠ c := fun he => isDigitC_ne h (d := 'r') (by decide) he.symm
  have h2 : ('₹' : Char) ≠ c := fun he => isDigitC_ne h (d := '₹') (by decide) he.symm
  rw [skipCurrency, matchLit, if_neg h1, matchLit, if_neg h1, matchLit, if_neg h2]

/-- Whitespace munching stops in front of a digit. -/
theorem dropWhile_space_digit {c : Char} (h : isDigitC c = true) (cs : List Char) :
    (c :: cs).dropWhile isSpaceC = c :: cs := by
  rw [List.dropWhile_cons, if_neg]
  simp [isSpaceC_digit h]

/-- `int(float)` of a whole number is that number. -/
theorem pyInt_natCast (n : ℕ) : pyInt (n : ℚ) = n := by
  simp [pyInt]

/-- The amount scanner captures an all-digit string whole. -/
theorem parseNumber_digits {ds : List Char} (h1 : ds ≠ [])
    (h2 : ∀ c ∈ ds, isDigitC c = true) : parseNumber ds = some (ds, []) := by
  rw [parseNumber]
  rw [digitSpan_all h2]
  cases ds with
  | nil => exact absurd rfl h1
  | cons c cs =>
    simp [commaGroups, commaGroupsAux]

/-- `float()` of an all-digit string is its decimal value. -/
theorem parseFloat_digits {ds : List Char} (h1 : ds ≠ [])
    (h2 : ∀ c ∈ ds, isDigitC c = true) :
    parseFloat ds = some ((digitsToNat ds : ℚ)) := by
  rw [parseFloat]
  rw [digitSpan_all h2]
  cases ds with
  | nil => exact absurd rfl h1
  | cons c cs => rfl

/-- Comma stripping fixes an all-digit string. -/
theorem stripCommas_digits {ds : List Char} (h : ∀ c ∈ ds, isDigitC c = true) :
    stripCommas ds = ds := by
  rw [stripCommas, List.filter_eq_self]
  intro c hc
  simpa using isDigitC_ne (h c hc) (d := ',') (by decide)

/-- The tail of pattern 1 after its keyword: one space then digits. -/
theorem afterKeyAmount_space_digits {ds : List Char} (h1 : ds ≠ [])
    (h2 : ∀ c ∈ ds, isDigitC c = true) :
    afterKeyAmount (' ' :: ds) = some ds := by
  rw [afterKeyAmount]
  rw [if_pos (by decide)]
  cases ds with
  | nil => exact absurd rfl h1
  | cons c cs =>
    rw [dropWhile_space_digit (h2 c (by simp)) cs]
    rw [skipCurrency_digit (h2 c (by simp)) cs]
    show (parseNumber ((c :: cs).dropWhile isSpaceC)).map (fun x => x.1) = some (c :: cs)
    rw [dropWhile_space_digit (h2 c (by simp)) cs]
    rw [parseNumber_digits h1 h2]
    rfl

/-- The literal `under` matches at the head of `under <digits>`. -/
theorem matchLit_under (ds : List Char) :
    matchLit "under".data ('u' :: 'n' :: 'd' :: 'e' :: 'r' :: ' ' :: ds)
      = some (' ' :: ds) := by
  simp [matchLit]

/-- Pattern 1 matches at the start of `under <digits>` capturing the digits. -/
theorem patUnder_at_start {ds : List Char} (h1 : ds ≠ [])
    (h2 : ∀ c ∈ ds, isDigitC c = true) :
    patUnder ('u' :: 'n' :: 'd' :: 'e' :: 'r' :: ' ' :: ds) = some ds := by
  rw [patUnder]
  rw [show firstKeyMatch ["under".data, "below".data, "less than".data, "upto".data]
      ('u' :: 'n' :: 'd' :: 'e' :: 'r' :: ' ' :: ds) = some (' ' :: ds) from by
    rw [firstKeyMatch, matchLit_under]]
  exact afterKeyAmount_space_digits h1 h2

/-- `_extract_price` on `under <digits>` returns the digits' value. -/
theorem extractPrice_under_digits {ds : List Char} (h1 : ds ≠ [])
    (h2 : ∀ c ∈ ds, isDigitC c = true) :
    extractPrice ('u' :: 'n' :: 'd' :: 'e' :: 'r' :: ' ' :: ds)
      = some ((digitsToNat ds : Int)) := by
  have hlow : lowerL ('u' :: 'n' :: 'd' :: 'e' :: 'r' :: ' ' :: ds)
      = 'u' :: 'n' :: 'd' :: 'e' :: 'r' :: ' ' :: ds := by
    show lowerL (['u', 'n', 'd', 'e', 'r', ' '] ++ ds) = ['u', 'n', 'd', 'e', 'r', ' '] ++ ds
    rw [lowerL, List.map_append]
    rw [show (['u', 'n', 'd', 'e', 'r', ' '].map asciiLower) = ['u', 'n', 'd', 'e', 'r', ' ']
      from by decide]
    rw [show ds.map asciiLower = ds from lowerL_digits h2]
  have hkw : containsSub "under".data ('u' :: 'n' :: 'd' :: 'e' :: 'r' :: ' ' :: ds)
      = true := by
    rw [containsSub, matchLit_under]
    rfl
  have hany : (budget_signal_words.any fun kw =>
      containsSub kw.data ('u' :: 'n' :: 'd' :: 'e' :: 'r' :: ' ' :: ds)) = true := by
    rw [budget_signal_words, List.any_cons]
    simp only [hkw, Bool.true_or]
  have hnk : containsSub ['k'] ('u' :: 'n' :: 'd' :: 'e' :: 'r' :: ' ' :: ds) = false := by
    apply containsSub_head_ne
    intro c hc
    have hcc : c = 'u' ∨ c = 'n' ∨ c = 'd' ∨ c = 'e' ∨ c = 'r' ∨ c = ' ' ∨ c ∈ ds := by
      simpa using hc
    rcases hcc with h | h | h | h | h | h | h
    · subst h; decide
    · subst h; decide
    · subst h; decide
    · subst h; decide
    · subst h; decide
    · subst h; decide
    · exact isDigitC_ne (h2 c h) (d := 'k') (by decide)
  have hpat : patUnder ('u' :: 'n' :: 'd' :: 'e' :: 'r' :: ' ' :: ds) = some ds :=
    patUnder_at_start h1 h2
  have hsearch : searchL patUnder ('u' :: 'n' :: 'd' :: 'e' :: 'r' :: ' ' :: ds)
      = some ds := by
    rw [searchL, hpat]
  have hparse : parsePrice ('u' :: 'n' :: 'd' :: 'e' :: 'r' :: ' ' :: ds) ds
      = some ((digitsToNat ds : Int)) := by
    rw [parsePrice, stripCommas_digits h2, parseFloat_digits h1 h2, hnk]
    simp [pyInt_natCast]
  unfold extractPrice
  simp only [hlow, hany, Bool.not_true, Bool.false_eq_true, if_false,
    tryPatterns, hsearch, hparse]

/-- `strip()` fixes `under <digits>`. -/
theorem stripL_under_digits {ds : List Char} (h1 : ds ≠ [])
    (h2 : ∀ c ∈ ds, isDigitC c = true) :
    stripL ('u' :: 'n' :: 'd' :: 'e' :: 'r' :: ' ' :: ds)
      = 'u' :: 'n' :: 'd' :: 'e' :: 'r' :: ' ' :: ds := by
  rw [stripL]
  rw [show List.dropWhile isSpaceC ('u' :: 'n' :: 'd' :: 'e' :: 'r' :: ' ' :: ds)
      = 'u' :: 'n' :: 'd' :: 'e' :: 'r' :: ' ' :: ds from by
    rw [List.dropWhile_cons, if_neg (by decide)]]
  cases hrev : ('u' :: 'n' :: 'd' :: 'e' :: 'r' :: ' ' :: ds).reverse with
  | nil =>
    exact absurd hrev (by simp)
  | cons a t =>
    have ha : a ∈ ('u' :: 'n' :: 'd' :: 'e' :: 'r' :: ' ' :: ds).reverse := by
      rw [hrev]; simp
    have hmem : a ∈ 'u' :: 'n' :: 'd' :: 'e' :: 'r' :: ' ' :: ds := List.mem_reverse.mp ha
    have hlast : a ∈ ds := by
      have hform : ('u' :: 'n' :: 'd' :: 'e' :: 'r' :: ' ' :: ds).reverse
          = ds.reverse ++ [' ', 'r', 'e', 'd', 'n', 'u'] := by
        show (['u', 'n', 'd', 'e', 'r', ' '] ++ ds).reverse = _
        rw [List.reverse_append]
        rfl
      cases hds : ds.reverse with
      | nil =>
        exact absurd (List.reverse_eq_nil_iff.mp hds) h1
      | cons b u =>
        rw [hform, hds] at hrev
        have hab : a = b := by
          have := hrev
          simp at this
          exact this.1.symm
        subst hab
        have : a ∈ ds.reverse := by rw [hds]; simp
        exact List.mem_reverse.mp this
    have hnsp : isSpaceC a = false := isSpaceC_digit (h2 a hlast)
    rw [List.dropWhile_cons, if_neg (by simp [hnsp])]
    rw [← hrev, List.reverse_reverse]

theorem foldl_if_add {α : Type} (pr : α → Bool) (k : ℚ) :
    ∀ (L : List α) (init : ℚ),
      L.foldl (fun s x => if pr x then s + k else s) init
        = init + k * (L.countP pr : ℚ) := by
  intro L
  induction L with
  | nil => intro init; simp
  | cons c cs ih =>
    intro init
    rw [List.foldl_cons, List.countP_cons]
    by_cases h : pr c
    · rw [if_pos h, ih, if_pos h]
      push_cast
      ring
    · rw [if_neg h, ih, if_neg h]
      push_cast
      ring

theorem filter_and_rank_perm (ps : List Product) (q : String) (a : Constraints) :
    (filter_and_rank ps q a).Perm ps := by
  rw [filter_and_rank]
  by_cases h : ps.isEmpty
  · rw [if_pos h]
    rw [List.isEmpty_iff.mp h]
  · rw [if_neg h]
    have hperm := (List.perm_insertionSort (fun x y : ℚ × Product => y.1 ≤ x.1)
      (ps.map (fun p => (scoreProduct p (lowerL q.data) a, p)))).map (fun sp => sp.2)
    refine hperm.trans ?_
    rw [List.map_map]
    have hcomp : ((fun sp : ℚ × Product => sp.2) ∘
        fun p => (scoreProduct p (lowerL q.data) a, p)) = id := rfl
    rw [hcomp, List.map_id]

/-- The sequential score accumulation equals the order-independent term sum. -/
theorem scoreProduct_eq_termSum (p : Product) (query_lower : List Char)
    (analysis : Constraints) :
    scoreProduct p query_lower analysis = scoreTermSum p query_lower analysis := by
  simp only [scoreProduct, scoreTermSum, productText, priceFit, foldl_if_add]
  split_ifs <;> ring

theorem mem_of_cond_filter {b : Prop} [Decidable b] {g : Product → Bool}
    {l : List Product} {x : Product} (h : x ∈ (if b then l.filter g else l)) :
    x ∈ l := by
  split at h
  · exact List.mem_of_mem_filter h
  · exact h

theorem budgetTable_values_ne_zero (cat : Option String) (kv : String × Int)
    (h : kv ∈ budgetTable cat) : kv.2 ≠ 0 := by
  cases cat with
  | none => simp [budgetTable] at h
  | some c =>
    rw [budgetTable] at h
    rcases hf : BUDGET_RANGES.find? (fun kv => kv.1 == c) with _ | kv0
    · rw [hf] at h
      simp at h
    · rw [hf] at h
      have h' : kv ∈ kv0.2 := h
      have hkv0 := List.mem_of_find?_eq_some hf
      simp only [BUDGET_RANGES, List.mem_cons, List.not_mem_nil, or_false] at hkv0
      rcases hkv0 with h0 | h0 | h0 <;> subst h0 <;> fin_cases h' <;> decide

theorem budgetRangeLookup_ne_zero (cat : Option String) (bt : String) :
    budgetRangeLookup cat bt ≠ 0 := by
  rw [budgetRangeLookup.eq_def]
  rcases hg : (budgetTable cat).find? (fun kv => kv.1 == bt) with _ | kv2
  · rw [hg]
    norm_num
  · rw [hg]
    exact budgetTable_values_ne_zero cat kv2 (List.mem_of_find?_eq_some hg)

theorem analyze_max_budget_ne_zero (q : String) :
    (analyze_budget q).max_budget ≠ 0 := by
  rw [analyze_budget_def]
  simp only
  split
  · rename_i ht
    rcases hex : extractPrice (stripL (lowerL q.data)) with _ | n
    · rw [hex] at ht
      simp [truthyOptInt] at ht
    · rw [hex] at ht
      simp only [truthyOptInt, bne_iff_ne] at ht
      simpa using ht
  · exact budgetRangeLookup_ne_zero _ _

theorem runPipeline_ok_success {analyze : String → Except String Constraints}
    {search : Option String → Option String → Option Int → Except String (List Product)}
    {rank : List Product → String → Constraints → Except String (List Product)}
    {q : String} {r : Response} (h : runPipeline analyze search rank q = .ok r) :
    r.success = true := by
  unfold runPipeline at h
  cases ha : analyze q with
  | error e => simp [ha] at h
  | ok a =>
    simp only [ha] at h
    cases hs : search (some q) a.category (some a.max_budget) with
    | error e => simp [hs] at h
    | ok found =>
      simp only [hs] at h
      cases hr : rank found q a with
      | error e => simp [hr] at h
      | ok ranked =>
        simp only [hr] at h
        cases h
        rfl

/-- Token-filtered search with a `non-apple` query only returns products
whose brand does not contain `apple`. -/
theorem search_non_apple_excludes (db : List Product) (q : String)
    (category : Option String) (max_price : Option Int)
    (brand color platform : Option String) (p : Product)
    (hq : containsSub "non-apple".data (lowerL q.data) = true)
    (hp : p ∈ (search_products db (some q) category max_price brand color platform).1) :
    containsSub "apple".data (lowerL p.brand.data) = false := by
  have hqc : truthyOptStr (some q) = true := by
    rcases hqd : q.data with _ | ⟨c, cs⟩
    · rw [hqd] at hq
      exact absurd hq (by decide)
    · simp [truthyOptStr, hqd]
  have hcond : (truthyOptStr (some q) &&
      containsSub "non-apple".data (lowerL ((some q).getD "").data)) = true := by
    simp only [Option.getD]
    simp [hqc, hq]
  simp only [search_products, sortProducts] at hp
  have h7 := (List.perm_insertionSort prodLe _).mem_iff.mp hp
  rw [if_pos hcond] at h7
  have hpred := (List.mem_filter.mp h7).2
  simpa using hpred

theorem search_state_unchanged (db : List Product) (q : String)
    (cat : Option String) (M : Int) (hM : M ≠ 0) :
    (search_products db (some q) cat (some M) none none none).2 = db := by
  have hT : truthyOptInt (some M) = true := by
    simp [truthyOptInt, hM]
  simp only [search_products, hT]
  simp

/-! ### Claims -/

/-- Claim C1, counterexample: the claim "for every query containing
`under N`, `max_budget = N` and `budget_type = specific`" fails as stated.
For `"under 0"` the extracted price `0` is falsy in Python, so the analyzer
returns the default ceiling `50000` with tier `low` instead of `0`/`specific`;
and for `"below 5 under 20"` the first pattern occurrence wins, so
`max_budget` is `5`, not `20`. -/
theorem claim1_counterexample :
    ((analyze_budget "under 0").max_budget = 50000 ∧
     (analyze_budget "under 0").budget_type = "low" ∧
     (analyze_budget "under 0").specific_budget = some 0) ∧
    (analyze_budget "below 5 under 20").max_budget = 5 := by
  decide

/-- Claim C1 (amended): for every query consisting exactly of `under `
followed by a nonzero decimal numeral (digit characters only, so in
particular no `k` shorthand and no competing pattern occurrence),
`analyze_budget` returns that numeral as `max_budget` and as
`specific_budget`, with `budget_type = "specific"`. -/
theorem claim1_under_query_amended {ds : List Char} (h1 : ds ≠ [])
    (h2 : ∀ c ∈ ds, isDigitC c = true) (h3 : digitsToNat ds ≠ 0) :
    (analyze_budget (String.mk ('u' :: 'n' :: 'd' :: 'e' :: 'r' :: ' ' :: ds))).budget_type
        = "specific" ∧
    (analyze_budget (String.mk ('u' :: 'n' :: 'd' :: 'e' :: 'r' :: ' ' :: ds))).max_budget
        = (digitsToNat ds : Int) ∧
    (analyze_budget (String.mk ('u' :: 'n' :: 'd' :: 'e' :: 'r' :: ' ' :: ds))).specific_budget
        = some ((digitsToNat ds : Int)) := by
  have hlow : lowerL ('u' :: 'n' :: 'd' :: 'e' :: 'r' :: ' ' :: ds)
      = 'u' :: 'n' :: 'd' :: 'e' :: 'r' :: ' ' :: ds := by
    show lowerL (['u', 'n', 'd', 'e', 'r', ' '] ++ ds) = ['u', 'n', 'd', 'e', 'r', ' '] ++ ds
    rw [lowerL, List.map_append]
    rw [show (['u', 'n', 'd', 'e', 'r', ' '].map asciiLower) = ['u', 'n', 'd', 'e', 'r', ' ']
      from by decide]
    rw [show ds.map asciiLower = ds from lowerL_digits h2]
  have hql : stripL (lowerL (String.mk ('u' :: 'n' :: 'd' :: 'e' :: 'r' :: ' ' :: ds)).data)
      = 'u' :: 'n' :: 'd' :: 'e' :: 'r' :: ' ' :: ds := by
    show stripL (lowerL ('u' :: 'n' :: 'd' :: 'e' :: 'r' :: ' ' :: ds)) = _
    rw [hlow, stripL_under_digits h1 h2]
  have hex : extractPrice ('u' :: 'n' :: 'd' :: 'e' :: 'r' :: ' ' :: ds)
      = some ((digitsToNat ds : Int)) := extractPrice_under_digits h1 h2
  have htr : truthyOptInt (some ((digitsToNat ds : Int))) = true := by
    simp [truthyOptInt]
    exact_mod_cast h3
  have hbt : detect_budget_type ('u' :: 'n' :: 'd' :: 'e' :: 'r' :: ' ' :: ds)
      = "specific" := by
    rw [detect_budget_type, hex, htr]
    rfl
  rw [analyze_budget_def]
  simp only [hql, hex, htr, hbt, if_true, Option.getD_some]
  refine ⟨by trivial, by trivial, by trivial⟩

/-- Claim C1 witness: the amended statement at the concrete query
`under 3000`. -/
theorem claim1_under_query_amended_witness :
    (analyze_budget "under 3000").budget_type = "specific" ∧
    (analyze_budget "under 3000").max_budget = 3000 ∧
    (analyze_budget "under 3000").specific_budget = some 3000 :=
  @claim1_under_query_amended ['3', '0', '0', '0']
    (by decide) (by decide) (by decide)

/-- Claim C2, counterexample: for `"phone under 0"` the analyzer sets
`specific_budget = some 0` (so the explicit price IS set) yet
`budget_type = "low"` and `max_budget = 15000` (the mobiles/low default),
refuting "if `specific_budget` is set then `budget_type = specific` and
`max_budget = specific_budget`". -/
theorem claim2_counterexample :
    (analyze_budget "phone under 0").specific_budget = some 0 ∧
    (analyze_budget "phone under 0").budget_type = "low" ∧
    (analyze_budget "phone under 0").max_budget = 15000 := by
  decide

/-- Claim C2 (amended): for every query, if `specific_budget` is set to a
NONZERO value then `budget_type = "specific"` and
`max_budget = specific_budget`; whenever `specific_budget` is falsy (absent
or zero), `max_budget` is the lexicon default for
`(category, budget_type)`, falling back to the global default 50000 when the
category is unknown (the `budgetRangeLookup` table lookup). -/
theorem claim2_invariant_amended (q : String) :
    (∀ n : Int, (analyze_budget q).specific_budget = some n → n ≠ 0 →
      (analyze_budget q).budget_type = "specific" ∧ (analyze_budget q).max_budget = n) ∧
    (truthyOptInt (analyze_budget q).specific_budget = false →
      (analyze_budget q).max_budget =
        budgetRangeLookup (analyze_budget q).category (analyze_budget q).budget_type) := by
  rw [analyze_budget_def]
  constructor
  · intro n hn hnz
    simp only at hn ⊢
    rw [detect_budget_type, hn]
    have ht : truthyOptInt (some n) = true := by
      simp [truthyOptInt, hnz]
    rw [ht]
    simp
  · intro h
    simp only at h ⊢
    rw [h]
    simp

/-- Claim C2 witness: the amended invariant at `shoes under 2000`. -/
theorem claim2_invariant_amended_witness :
    (analyze_budget "shoes under 2000").budget_type = "specific" ∧
    (analyze_budget "shoes under 2000").max_budget = 2000 :=
  (claim2_invariant_amended "shoes under 2000").1 2000 (by decide) (by decide)

/-- Claim C3: over abstract fallible stages, `process_query` never lets a
stage failure escape: whenever the pipeline body fails with message `e` the
boundary returns exactly the failure dictionary
`{success := false, error := e, query := q, products := []}`, and otherwise
it returns the success response unchanged (with `success = true`); a
concrete repository failure is converted accordingly. -/
theorem claim3_error_isolation :
    (∀ (analyze : String → Except String Constraints)
        (search : Option String → Option String → Option Int → Except String (List Product))
        (rank : List Product → String → Constraints → Except String (List Product))
        (q : String),
      (∃ e, runPipeline analyze search rank q = .error e ∧
        process_query_boundary analyze search rank q = failureResponse q e) ∨
      (∃ r, runPipeline analyze search rank q = .ok r ∧
        process_query_boundary analyze search rank q = r ∧ r.success = true)) ∧
    process_query_boundary (fun s => .ok (analyze_budget s))
      (fun _ _ _ => .error "RepositoryError")
      (fun found s a => .ok (filter_and_rank found s a)) "laptop"
      = failureResponse "laptop" "RepositoryError" := by
  constructor
  · intro analyze search rank q
    rcases h : runPipeline analyze search rank q with e | r
    · refine Or.inl ⟨e, rfl, ?_⟩
      simp only [process_query_boundary, h]
    · refine Or.inr ⟨r, rfl, ?_, runPipeline_ok_success h⟩
      simp only [process_query_boundary, h]
  · rfl

/-- Claim C4, counterexample: the scorer does NOT equal the claimed formula.
For the product with color `navy blue` and query `navy blue`, the code adds
`+3` twice (once per matching color word, by substring) for a total of 12,
while the claimed formula (one `+3`, requiring the color word to equal the
product color) gives 6; and for a constraint category `some ""` with product
category `""`, the code's truthiness test skips the `+1` (total 0) while the
claimed "non-null" condition awards it (total 1). -/
theorem claim4_counterexample :
    (scoreProduct twoColorProduct "navy blue".data plainConstraints ≠
      specRelevanceScore twoColorProduct "navy blue".data plainConstraints) ∧
    (scoreProduct emptyCategoryProduct "".data emptyCategoryConstraints ≠
      specRelevanceScore emptyCategoryProduct "".data emptyCategoryConstraints) := by
  have hc1 : scoreTermSum twoColorProduct "navy blue".data plainConstraints = 12 := by
    rw [scoreTermSum]
    rw [show ((splitWs "navy blue".data).countP
        (fun keyword => containsSub keyword (productText twoColorProduct))) = 2 from by decide]
    rw [show (COLOR_KEYWORDS.countP (fun color =>
        containsSub color.data "navy blue".data &&
        containsSub color.data (lowerL twoColorProduct.color.data))) = 2 from by decide]
    rw [if_pos (by decide)]
    rw [show priceFit twoColorProduct plainConstraints = 0 from by
      rw [priceFit, if_neg (by decide)]]
    rw [show twoColorProduct.rating = 0 from rfl]
    rw [if_neg (by decide)]
    norm_num
  have hs1 : specRelevanceScore twoColorProduct "navy blue".data plainConstraints = 6 := by
    rw [specRelevanceScore]
    rw [show ((splitWs "navy blue".data).countP
        (fun keyword => containsSub keyword (productText twoColorProduct))) = 2 from by decide]
    rw [if_neg (by decide)]
    rw [if_pos (by decide)]
    rw [show priceFit twoColorProduct plainConstraints = 0 from by
      rw [priceFit, if_neg (by decide)]]
    rw [show twoColorProduct.rating = 0 from rfl]
    rw [if_neg (by decide)]
    norm_num
  have hc2 : scoreTermSum emptyCategoryProduct "".data emptyCategoryConstraints = 0 := by
    rw [scoreTermSum]
    rw [show ((splitWs "".data).countP
        (fun keyword => containsSub keyword (productText emptyCategoryProduct))) = 0 from by
      decide]
    rw [show (COLOR_KEYWORDS.countP (fun color =>
        containsSub color.data "".data &&
        containsSub color.data (lowerL emptyCategoryProduct.color.data))) = 0 from by decide]
    rw [if_neg (by decide)]
    rw [show priceFit emptyCategoryProduct emptyCategoryConstraints = 0 from by
      rw [priceFit, if_neg (by decide)]]
    rw [show emptyCategoryProduct.rating = 0 from rfl]
    rw [if_neg (by decide)]
    norm_num
  have hs2 : specRelevanceScore emptyCategoryProduct "".data emptyCategoryConstraints = 1 := by
    rw [specRelevanceScore]
    rw [show ((splitWs "".data).countP
        (fun keyword => containsSub keyword (productText emptyCategoryProduct))) = 0 from by
      decide]
    rw [if_neg (by decide)]
    rw [if_neg (by decide)]
    rw [show priceFit emptyCategoryProduct emptyCategoryConstraints = 0 from by
      rw [priceFit, if_neg (by decide)]]
    rw [show emptyCategoryProduct.rating = 0 from rfl]
    rw [if_pos (by decide)]
    norm_num
  constructor
  · rw [scoreProduct_eq_termSum, hc1, hs1]
    norm_num
  · rw [scoreProduct_eq_termSum, hc2, hs2]
    norm_num

/-- Claim C4 (amended): for every product, query and constraints, the
scorer's sequentially accumulated score equals the order-independent sum
`scoreTermSum`: 2 per matching query token, plus 3 for EACH recognized color
word occurring as a substring of both the query and the product's color,
plus 2 for a brand substring hit, plus the price-fit term (skipped for a
zero ceiling), plus `rating * 1.5`, plus 1 when the constraint category is
non-null, non-empty, and equal to the product's category. -/
theorem claim4_score_formula_amended (p : Product) (query_lower : List Char)
    (analysis : Constraints) :
    scoreProduct p query_lower analysis = scoreTermSum p query_lower analysis :=
  scoreProduct_eq_termSum p query_lower analysis

/-- Claim C5: for every catalog and query, the pipeline returns at most 3
products, `total_found` is the number of retrieved candidates before
truncation, and ranking is a permutation of the retrieved candidates (no
candidate is dropped, only reordered). -/
theorem claim5_truncation_total_found :
    ∀ (db : List Product) (q : String),
      ((process_query db q).1.products.length ≤ 3) ∧
      ((process_query db q).1.total_found = some
        (search_products db (some q) (analyze_budget q).category
          (some (analyze_budget q).max_budget) none none none).1.length) ∧
      ((filter_and_rank
          (search_products db (some q) (analyze_budget q).category
            (some (analyze_budget q).max_budget) none none none).1 q
          (analyze_budget q)).Perm
        (search_products db (some q) (analyze_budget q).category
          (some (analyze_budget q).max_budget) none none none).1) := by
  intro db q
  refine ⟨?_, rfl, filter_and_rank_perm _ _ _⟩
  show ((filter_and_rank
      (search_products db (some q) (analyze_budget q).category
        (some (analyze_budget q).max_budget) none none none).1 q
      (analyze_budget q)).take 3).length ≤ 3
  rw [List.length_take]
  exact min_le_left _ _

/-- Claim C6, counterexample: with ceiling `C = 0` the price criterion is
falsy in Python and the filter is skipped entirely, so a product priced 5 is
returned even though `5 ≤ 0` fails — the claim is false for the ceiling 0. -/
theorem claim6_counterexample :
    (search_products [fivePriceProduct] none none (some 0) none none none).1
      = [fivePriceProduct] ∧ ¬(fivePriceProduct.price ≤ 0) := by
  constructor <;> decide

/-- Claim C6 (amended): for every catalog state and every NONZERO ceiling
`C`, every product returned by `search_products` with `maxPrice = C` has
`price ≤ C` (with `C = 0` the filter is disabled by truthiness). -/
theorem claim6_price_filter_amended (db : List Product)
    (query category : Option String) (C : Int)
    (brand color platform : Option String) (p : Product) (hC : C ≠ 0)
    (hp : p ∈ (search_products db query category (some C) brand color platform).1) :
    p.price ≤ C := by
  have hT : truthyOptInt (some C) = true := by
    simp [truthyOptInt, hC]
  simp only [search_products, sortProducts] at hp
  have h7 := (List.perm_insertionSort prodLe _).mem_iff.mp hp
  have h6 := mem_of_cond_filter h7
  have h5 := mem_of_cond_filter h6
  have h4 := mem_of_cond_filter h5
  have h3 := mem_of_cond_filter h4
  have h2 := mem_of_cond_filter h3
  rw [if_pos hT] at h2
  have hpred := (List.mem_filter.mp h2).2
  simpa using hpred

/-- Claim C6 witness: the amended statement at a concrete catalog, ceiling
10, and returned product. -/
theorem claim6_price_filter_amended_witness : tenBudgetProduct.price ≤ 10 :=
  claim6_price_filter_amended [tenBudgetProduct] none none 10 none none none
    tenBudgetProduct (by decide) (by decide)

/-- Claim C7: the query `non-Apple laptop` resolves to category
`electronics`; generally, whenever the free text passed to the repository
contains the brand-exclusion phrase `non-apple`, every product whose brand
contains `apple` (case-insensitively) is removed from the search result, and
hence no product returned by the whole pipeline for `non-Apple laptop` has a
brand containing `apple`. -/
theorem claim7_brand_exclusion :
    ((analyze_budget "non-Apple laptop").category = some "electronics") ∧
    (∀ (db : List Product) (q : String) (category : Option String)
        (max_price : Option Int) (brand color platform : Option String) (p : Product),
      containsSub "non-apple".data (lowerL q.data) = true →
      p ∈ (search_products db (some q) category max_price brand color platform).1 →
      containsSub "apple".data (lowerL p.brand.data) = false) ∧
    (∀ (db : List Product) (p : Product),
      p ∈ (process_query db "non-Apple laptop").1.products →
      containsSub "apple".data (lowerL p.brand.data) = false) := by
  refine ⟨by decide, search_non_apple_excludes, ?_⟩
  intro db p hp
  have hp' : p ∈ (filter_and_rank
      (search_products db (some "non-Apple laptop")
        (analyze_budget "non-Apple laptop").category
        (some (analyze_budget "non-Apple laptop").max_budget) none none none).1
      "non-Apple laptop" (analyze_budget "non-Apple laptop")).take 3 := hp
  have h1 := List.take_subset 3 _ hp'
  have h2 := (filter_and_rank_perm _ _ _).mem_iff.mp h1
  exact search_non_apple_excludes db "non-Apple laptop" _ _ _ _ _ p (by decide) h2

/-- Claim C7 witness: a concrete non-Apple product returned for a
`non-apple` query indeed has no `apple` in its brand. -/
theorem claim7_brand_exclusion_witness :
    containsSub "apple".data (lowerL dellProduct.brand.data) = false :=
  claim7_brand_exclusion.2.1 [dellProduct] "non-apple dell" none none none none none
    dellProduct (by decide) (by decide)

/-- Claim C8: the pipeline is deterministic and stateless per call — a
`process_query` call leaves the repository state unchanged (its price
criterion is always truthy, because `max_budget` is provably never zero, so
the catalog search never sorts the stored list in place), and a second call
with the same query against the resulting state returns the identical
response.  Extraction purity is definitional in this embedding: it is a
function of the query string alone. -/
theorem claim8_determinism :
    ∀ (db : List Product) (q : String),
      (process_query db q).2 = db ∧
      (process_query (process_query db q).2 q).1 = (process_query db q).1 := by
  intro db q
  have h1 : (process_query db q).2 = db := by
    show (search_products db (some q) (analyze_budget q).category
      (some (analyze_budget q).max_budget) none none none).2 = db
    exact search_state_unchanged db q _ _ (analyze_max_budget_ne_zero q)
  exact ⟨h1, by rw [h1]⟩

/-- Claim C9: budget-tier keywords are matched as substrings of the whole
query: when no explicit price is extractable, the budget type is the first
tier in order low, medium, high whose keyword list has a substring hit
(default `low`); in particular `analyze_budget "laptop"` yields tier `high`
with ceiling 250000, because the high-tier keyword `top` is a substring of
`laptop`. -/
theorem claim9_tier_substring :
    (∀ q : String,
      extractPrice (stripL (lowerL q.data)) = none →
        (analyze_budget q).budget_type =
          match BUDGET_KEYWORDS.find?
              (fun kv => anyKeywordHit (stripL (lowerL q.data)) kv.2) with
          | some kv => kv.1
          | none => "low") ∧
    analyze_budget "laptop" =
      { category := some "electronics", max_budget := 250000,
        budget_type := "high", specific_budget := none,
        original_query := "laptop" } := by
  constructor
  · intro q hq
    rw [analyze_budget_def]
    simp only
    rw [detect_budget_type, hq]
    simp only [truthyOptInt, Bool.false_eq_true, if_false]
    rcases hf : BUDGET_KEYWORDS.find?
        (fun kv => anyKeywordHit (stripL (lowerL q.data)) kv.2) with _ | kv
    · rw [hf]
      exact ite_self _
    · rw [hf]
  · decide

/-- Claim C9 witness: the general tier rule applied at the concrete query
`laptop` gives tier `high`. -/
theorem claim9_tier_substring_witness :
    (analyze_budget "laptop").budget_type = "high" := by
  have h := (claim9_tier_substring.1 "laptop") (by decide)
  exact h.trans (by decide)

/-- Claim C10: calling `search_products` with every criterion absent sorts
the stored product list in place by descending rating then ascending price —
the repository state after the call IS the sorted list (the result aliases
it), the mutation is observable through `get_product_by_id`, and concretely
a two-product catalog stored as low-rated-first reads back high-rated-first
at index 0 after such a call. -/
theorem claim10_state_mutation :
    (∀ db : List Product,
      search_products db none none none none none none
        = (sortProducts db, sortProducts db) ∧
      (∀ pid : Int,
        get_product_by_id (search_products db none none none none none none).2 pid
          = get_product_by_id (sortProducts db) pid) ∧
      (sortProducts db).Sorted prodLe) ∧
    (get_product_by_id [lowRatedProduct, highRatedProduct] 0 = some lowRatedProduct ∧
     get_product_by_id
       (search_products [lowRatedProduct, highRatedProduct]
         none none none none none none).2 0
       = some highRatedProduct) := by
  constructor
  · intro db
    exact ⟨rfl, fun pid => rfl, List.sorted_insertionSort prodLe db⟩
  · constructor <;> decide

end RomaStore
